import Mathlib

/-!
Verification development for the AgriBot ESP32 firmware
(command dispatch and actuator-coordination layer).

The definitions below are a shallow embedding of the C++ sources under
src/esp32/AgriBot_ESP32/.  Machine integers (C `int`, `long`) are modelled
as Lean `Int`; PWM duty values written with `analogWrite` are recorded as
`Nat` fields of the controller state; `millis()` timestamps are `Nat`
(monotone milliseconds, no wraparound within a run); float quantities
(distances in cm, positions in mm) are modelled as `Rat`.  Serial debug
logging inside the component classes is not modelled; the dispatcher's
protocol response lines (DONE / ERROR / SPEED: / POS: / ...) are modelled
as the command handler's output list.
-/

/-- Arduino constrain(x, lo, hi) for integers. -/
def constrain (x lo hi : Int) : Int := max lo (min x hi)

/-- MOTOR_DEFAULT_SPEED from dual_motor.h. -/
def MOTOR_DEFAULT_SPEED : Int := 100

/-- MOTOR_ACCEL_STEP from dual_motor.h: speed change per ramp step. -/
def MOTOR_ACCEL_STEP : Int := 5

/-- MOTOR_ACCEL_DELAY from dual_motor.h: ms between ramp steps. -/
def MOTOR_ACCEL_DELAY : Nat := 20

/--
State of DualMotorController (dual_motor.h).  The four pin fields record
the PWM duty most recently written to PIN_MOTOR_L_IN1, PIN_MOTOR_L_IN2,
PIN_MOTOR_R_IN3, PIN_MOTOR_R_IN4.
-/
structure DualMotorController where
  targetSpeed : Int := 0
  currentSpeedL : Int := 0
  currentSpeedR : Int := 0
  trimOffset : Int := 0
  direction : Int := 0
  lastAccelTime : Nat := 0
  pinL1 : Nat := 0
  pinL2 : Nat := 0
  pinR3 : Nat := 0
  pinR4 : Nat := 0
deriving Repr, DecidableEq

/-- DualMotorController::setMotorL: sign selects the active pin, magnitude
is clamped to 0..255, the non-active pin is driven to zero. -/
def DualMotorController.setMotorL (d : DualMotorController) (speed : Int) :
    DualMotorController :=
  let absSpeed := constrain |speed| 0 255
  if speed > 0 then { d with pinL1 := absSpeed.toNat, pinL2 := 0 }
  else if speed < 0 then { d with pinL1 := 0, pinL2 := absSpeed.toNat }
  else { d with pinL1 := 0, pinL2 := 0 }

/-- DualMotorController::setMotorR. -/
def DualMotorController.setMotorR (d : DualMotorController) (speed : Int) :
    DualMotorController :=
  let absSpeed := constrain |speed| 0 255
  if speed > 0 then { d with pinR3 := absSpeed.toNat, pinR4 := 0 }
  else if speed < 0 then { d with pinR3 := 0, pinR4 := absSpeed.toNat }
  else { d with pinR3 := 0, pinR4 := 0 }

/-- DualMotorController::forward. -/
def DualMotorController.forward (d : DualMotorController) : DualMotorController :=
  { d with direction := 1, targetSpeed := MOTOR_DEFAULT_SPEED }

/-- DualMotorController::backward. -/
def DualMotorController.backward (d : DualMotorController) : DualMotorController :=
  { d with direction := -1, targetSpeed := MOTOR_DEFAULT_SPEED }

/-- DualMotorController::stop (graceful: the ramp in update() decays speed). -/
def DualMotorController.stop (d : DualMotorController) : DualMotorController :=
  { d with direction := 0, targetSpeed := 0 }

/-- DualMotorController::emergencyStop: zeroes direction, target and both
current speeds and writes PWM 0 to all four drive pins. -/
def DualMotorController.emergencyStop (d : DualMotorController) :
    DualMotorController :=
  { d with direction := 0, targetSpeed := 0, currentSpeedL := 0,
           currentSpeedR := 0, pinL1 := 0, pinL2 := 0, pinR3 := 0, pinR4 := 0 }

/-- DualMotorController::turnLeft: left reverse, right forward, half speed. -/
def DualMotorController.turnLeft (d : DualMotorController) : DualMotorController :=
  (d.setMotorL (-(MOTOR_DEFAULT_SPEED / 2))).setMotorR (MOTOR_DEFAULT_SPEED / 2)

/-- DualMotorController::turnRight. -/
def DualMotorController.turnRight (d : DualMotorController) : DualMotorController :=
  (d.setMotorL (MOTOR_DEFAULT_SPEED / 2)).setMotorR (-(MOTOR_DEFAULT_SPEED / 2))

/-- DualMotorController::curveLeft: left at a third speed, right at full. -/
def DualMotorController.curveLeft (d : DualMotorController) : DualMotorController :=
  (d.setMotorL (MOTOR_DEFAULT_SPEED / 3)).setMotorR MOTOR_DEFAULT_SPEED

/-- DualMotorController::curveRight. -/
def DualMotorController.curveRight (d : DualMotorController) : DualMotorController :=
  (d.setMotorL MOTOR_DEFAULT_SPEED).setMotorR (MOTOR_DEFAULT_SPEED / 3)

/-- DualMotorController::setSpeed: clamp 0..255 and default to forward when
previously stopped and the requested speed is positive. -/
def DualMotorController.setSpeed (d : DualMotorController) (speed : Int) :
    DualMotorController :=
  let d := { d with targetSpeed := constrain speed 0 255 }
  if d.direction = 0 ∧ speed > 0 then { d with direction := 1 } else d

/-- DualMotorController::setTrim: clamp -50..50. -/
def DualMotorController.setTrim (d : DualMotorController) (offset : Int) :
    DualMotorController :=
  { d with trimOffset := constrain offset (-50) 50 }

/-- DualMotorController::saveTrim writes trimOffset + 50 into the EEPROM
trim cell; the cell holds an unsigned byte, modelled as the value mod 256. -/
def DualMotorController.saveTrim (d : DualMotorController) : Nat :=
  ((d.trimOffset + 50) % 256).toNat

/-- DualMotorController::loadTrim: a stored byte in 0..100 decodes to
stored - 50; any other byte is a load failure and yields trim 0. -/
def DualMotorController.loadTrim (d : DualMotorController) (stored : Nat) :
    DualMotorController :=
  if stored ≤ 100 then { d with trimOffset := (stored : Int) - 50 }
  else { d with trimOffset := 0 }

/-- DualMotorController::getTrim. -/
def DualMotorController.getTrim (d : DualMotorController) : Int := d.trimOffset

/-- DualMotorController::getSpeed. -/
def DualMotorController.getSpeed (d : DualMotorController) : Int := d.targetSpeed

/-- DualMotorController::applySpeed: apply trim to the per-side speeds,
multiply in the direction sign, and translate to the two-pin PWM form. -/
def DualMotorController.applySpeed (d : DualMotorController) :
    DualMotorController :=
  let speedL := if d.trimOffset > 0 then d.currentSpeedL
    else if d.trimOffset < 0 then d.currentSpeedL + d.trimOffset
    else d.currentSpeedL
  let speedR := if d.trimOffset > 0 then d.currentSpeedR - d.trimOffset
    else d.currentSpeedR
  (d.setMotorL (speedL * d.direction)).setMotorR (speedR * d.direction)

/-- DualMotorController::update: rate-limited speed ramp (at most one step
per MOTOR_ACCEL_DELAY ms) followed by applySpeed. -/
def DualMotorController.update (d : DualMotorController) (now : Nat) :
    DualMotorController :=
  if now - d.lastAccelTime < MOTOR_ACCEL_DELAY then d
  else
    let d := { d with lastAccelTime := now }
    let d := { d with currentSpeedL :=
      (if d.currentSpeedL < d.targetSpeed then
        min (d.currentSpeedL + MOTOR_ACCEL_STEP) d.targetSpeed
      else if d.currentSpeedL > d.targetSpeed then
        max (d.currentSpeedL - MOTOR_ACCEL_STEP) d.targetSpeed
      else d.currentSpeedL) }
    let d := { d with currentSpeedR :=
      (if d.currentSpeedR < d.targetSpeed then
        min (d.currentSpeedR + MOTOR_ACCEL_STEP) d.targetSpeed
      else if d.currentSpeedR > d.targetSpeed then
        max (d.currentSpeedR - MOTOR_ACCEL_STEP) d.targetSpeed
      else d.currentSpeedR) }
    d.applySpeed

lemma DualMotorController.setMotorL_currentSpeedL (d : DualMotorController)
    (s : Int) : (d.setMotorL s).currentSpeedL = d.currentSpeedL := by
  dsimp only [DualMotorController.setMotorL]
  split
  · rfl
  · split <;> rfl

lemma DualMotorController.setMotorL_currentSpeedR (d : DualMotorController)
    (s : Int) : (d.setMotorL s).currentSpeedR = d.currentSpeedR := by
  dsimp only [DualMotorController.setMotorL]
  split
  · rfl
  · split <;> rfl

lemma DualMotorController.setMotorR_currentSpeedL (d : DualMotorController)
    (s : Int) : (d.setMotorR s).currentSpeedL = d.currentSpeedL := by
  dsimp only [DualMotorController.setMotorR]
  split
  · rfl
  · split <;> rfl

lemma DualMotorController.setMotorR_currentSpeedR (d : DualMotorController)
    (s : Int) : (d.setMotorR s).currentSpeedR = d.currentSpeedR := by
  dsimp only [DualMotorController.setMotorR]
  split
  · rfl
  · split <;> rfl

lemma DualMotorController.applySpeed_currentSpeedL (d : DualMotorController) :
    d.applySpeed.currentSpeedL = d.currentSpeedL := by
  dsimp only [DualMotorController.applySpeed]
  rw [DualMotorController.setMotorR_currentSpeedL,
    DualMotorController.setMotorL_currentSpeedL]

lemma DualMotorController.applySpeed_currentSpeedR (d : DualMotorController) :
    d.applySpeed.currentSpeedR = d.currentSpeedR := by
  dsimp only [DualMotorController.applySpeed]
  rw [DualMotorController.setMotorR_currentSpeedR,
    DualMotorController.setMotorL_currentSpeedR]

/-- C1: every rate-limit-passing invocation of update() moves each side's
current speed by at most MOTOR_ACCEL_STEP = 5 units, keeps it between the
old value and the target speed (never crossing past the target), and never
increases its distance to the target. -/
theorem update_ramp_step_bounded_no_overshoot (d : DualMotorController)
    (now : Nat) (h : MOTOR_ACCEL_DELAY ≤ now - d.lastAccelTime) :
    d.currentSpeedL - MOTOR_ACCEL_STEP ≤ (d.update now).currentSpeedL ∧
    (d.update now).currentSpeedL ≤ d.currentSpeedL + MOTOR_ACCEL_STEP ∧
    d.currentSpeedR - MOTOR_ACCEL_STEP ≤ (d.update now).currentSpeedR ∧
    (d.update now).currentSpeedR ≤ d.currentSpeedR + MOTOR_ACCEL_STEP ∧
    min d.currentSpeedL d.targetSpeed ≤ (d.update now).currentSpeedL ∧
    (d.update now).currentSpeedL ≤ max d.currentSpeedL d.targetSpeed ∧
    min d.currentSpeedR d.targetSpeed ≤ (d.update now).currentSpeedR ∧
    (d.update now).currentSpeedR ≤ max d.currentSpeedR d.targetSpeed := by
  have hrate : ¬ (now - d.lastAccelTime < MOTOR_ACCEL_DELAY) := by omega
  unfold DualMotorController.update
  rw [if_neg hrate]
  simp only [DualMotorController.applySpeed_currentSpeedL,
    DualMotorController.applySpeed_currentSpeedR]
  simp only [MOTOR_ACCEL_STEP]
  refine ⟨?_, ?_, ?_, ?_, ?_, ?_, ?_, ?_⟩ <;>
    · split
      · omega
      · split <;> omega

/-- Witness for C1 at a concrete state: ramping up from 3 toward 100. -/
theorem update_ramp_step_bounded_no_overshoot_witness :
    MOTOR_ACCEL_DELAY ≤ 100 - (0 : Nat) ∧
    (DualMotorController.update { targetSpeed := 100, currentSpeedL := 3 }
        100).currentSpeedL ≤ 3 + MOTOR_ACCEL_STEP :=
  ⟨by decide,
   (update_ramp_step_bounded_no_overshoot
     { targetSpeed := 100, currentSpeedL := 3 } 100 (by decide)).2.1⟩

/-- C2: emergencyStop zeroes both current speeds and drives all four PWM
pins (both sides, both directions) to 0, from any prior drive state. -/
theorem emergencyStop_zeroes_speeds_and_pins (d : DualMotorController) :
    (d.emergencyStop).currentSpeedL = 0 ∧
    (d.emergencyStop).currentSpeedR = 0 ∧
    (d.emergencyStop).pinL1 = 0 ∧ (d.emergencyStop).pinL2 = 0 ∧
    (d.emergencyStop).pinR3 = 0 ∧ (d.emergencyStop).pinR4 = 0 := by
  unfold DualMotorController.emergencyStop
  exact ⟨rfl, rfl, rfl, rfl, rfl, rfl⟩

/--
State of MotorEncoder (encoder.h): the interrupt-maintained signed pulse
count and the last sampled level of channel A.  The disable-interrupt
bracketing in getPosition / reset / setPosition is modelled by treating
each interrupt edge and each public read or write as one atomic step of
this state (single-producer / single-consumer snapshot semantics), so a
read always returns the counter value at some edge boundary.
-/
structure MotorEncoder where
  pulseCount : Int := 0
  lastStateA : Bool := false
deriving Repr, DecidableEq

/-- MotorEncoder::handleInterrupt, called on every CHANGE edge of channel
A: when channel A's level changed, count up if channel B differs from the
new level of A, down otherwise; always record the new level of A. -/
def MotorEncoder.handleInterrupt (e : MotorEncoder) (stateA stateB : Bool) :
    MotorEncoder :=
  if stateA ≠ e.lastStateA then
    if stateB ≠ stateA then
      { pulseCount := e.pulseCount + 1, lastStateA := stateA }
    else
      { pulseCount := e.pulseCount - 1, lastStateA := stateA }
  else { e with lastStateA := stateA }

/-- MotorEncoder::getPosition: atomic snapshot of the pulse count. -/
def MotorEncoder.getPosition (e : MotorEncoder) : Int := e.pulseCount

/-- MotorEncoder::reset: atomically zero the pulse count. -/
def MotorEncoder.reset (e : MotorEncoder) : MotorEncoder :=
  { e with pulseCount := 0 }

/-- MotorEncoder::setPosition. -/
def MotorEncoder.setPosition (e : MotorEncoder) (pos : Int) : MotorEncoder :=
  { e with pulseCount := pos }

/-- A forward quadrature edge: channel A toggles and channel B's level
differs from channel A's new level (B still holds A's old level). -/
def MotorEncoder.forwardEdge (e : MotorEncoder) : MotorEncoder :=
  e.handleInterrupt (!e.lastStateA) e.lastStateA

/-- A reverse quadrature edge: channel A toggles and channel B's level
equals channel A's new level. -/
def MotorEncoder.reverseEdge (e : MotorEncoder) : MotorEncoder :=
  e.handleInterrupt (!e.lastStateA) (!e.lastStateA)

/-- Iterated interrupt edges. -/
def MotorEncoder.iterEdges (step : MotorEncoder → MotorEncoder) :
    Nat → MotorEncoder → MotorEncoder
  | 0, e => e
  | n + 1, e => MotorEncoder.iterEdges step n (step e)

lemma MotorEncoder.forwardEdge_pulseCount (e : MotorEncoder) :
    e.forwardEdge.pulseCount = e.pulseCount + 1 := by
  dsimp only [MotorEncoder.forwardEdge, MotorEncoder.handleInterrupt]
  rw [if_pos (by cases e.lastStateA <;> decide),
    if_pos (by cases e.lastStateA <;> decide)]

lemma MotorEncoder.reverseEdge_pulseCount (e : MotorEncoder) :
    e.reverseEdge.pulseCount = e.pulseCount - 1 := by
  dsimp only [MotorEncoder.reverseEdge, MotorEncoder.handleInterrupt]
  rw [if_pos (by cases e.lastStateA <;> decide),
    if_neg (by cases e.lastStateA <;> decide)]

lemma MotorEncoder.iterEdges_forward_pos (n : Nat) (e : MotorEncoder) :
    (MotorEncoder.iterEdges MotorEncoder.forwardEdge n e).pulseCount =
      e.pulseCount + n := by
  induction n generalizing e with
  | zero => simp [MotorEncoder.iterEdges]
  | succ k ih =>
    rw [MotorEncoder.iterEdges, ih, MotorEncoder.forwardEdge_pulseCount]
    push_cast
    ring

lemma MotorEncoder.iterEdges_reverse_pos (n : Nat) (e : MotorEncoder) :
    (MotorEncoder.iterEdges MotorEncoder.reverseEdge n e).pulseCount =
      e.pulseCount - n := by
  induction n generalizing e with
  | zero => simp [MotorEncoder.iterEdges]
  | succ k ih =>
    rw [MotorEncoder.iterEdges, ih, MotorEncoder.reverseEdge_pulseCount]
    push_cast
    ring

/-- C3: after reset, N forward quadrature edges make getPosition return
exactly N and N reverse edges make it return exactly -N; moreover a read
interleaved after any prefix of k of the N edges (the atomic-snapshot
model of the disable-interrupt bracketing) returns exactly the count of
that prefix, never a torn value. -/
theorem encoder_reset_edges_roundtrip (e : MotorEncoder) (N : Nat) :
    (MotorEncoder.iterEdges MotorEncoder.forwardEdge N e.reset).getPosition
      = N ∧
    (MotorEncoder.iterEdges MotorEncoder.reverseEdge N e.reset).getPosition
      = -N ∧
    (∀ k, k ≤ N →
      (MotorEncoder.iterEdges MotorEncoder.forwardEdge k e.reset).getPosition
        = k) ∧
    (∀ k, k ≤ N →
      (MotorEncoder.iterEdges MotorEncoder.reverseEdge k e.reset).getPosition
        = -k) := by
  refine ⟨?_, ?_, fun k _ => ?_, fun k _ => ?_⟩ <;>
    simp [MotorEncoder.getPosition, MotorEncoder.iterEdges_forward_pos,
      MotorEncoder.iterEdges_reverse_pos, MotorEncoder.reset]

/-- Witness for C3 at N = 3, reading after the prefix of 2 edges. -/
theorem encoder_reset_edges_roundtrip_witness :
    (MotorEncoder.iterEdges MotorEncoder.forwardEdge 3
      (MotorEncoder.reset {}) ).getPosition = 3 ∧
    (MotorEncoder.iterEdges MotorEncoder.forwardEdge 2
      (MotorEncoder.reset {}) ).getPosition = 2 :=
  ⟨(encoder_reset_edges_roundtrip {} 3).1,
   (encoder_reset_edges_roundtrip {} 3).2.2.1 2 (by decide)⟩

/-- C6: the trim round-trip: setTrim v, then saveTrim into the EEPROM byte
cell, then loadTrim from that cell, yields getTrim = v for every v in
[-50, 50]. -/
theorem trim_save_load_roundtrip (d : DualMotorController) (v : Int)
    (h1 : -50 ≤ v) (h2 : v ≤ 50) :
    ((d.setTrim v).loadTrim (d.setTrim v).saveTrim).getTrim = v := by
  have hset : (d.setTrim v).trimOffset = v := by
    dsimp only [DualMotorController.setTrim, constrain]
    omega
  dsimp only [DualMotorController.loadTrim, DualMotorController.saveTrim,
    DualMotorController.getTrim]
  rw [hset]
  have hmod : (v + 50) % 256 = v + 50 := Int.emod_eq_of_lt (by omega) (by omega)
  rw [hmod]
  rw [if_pos (by omega)]
  show (((v + 50).toNat : Int)) - 50 = v
  omega

/-- Witness for C6 at v = -7. -/
theorem trim_save_load_roundtrip_witness :
    (-50 ≤ (-7 : Int)) ∧
    ((DualMotorController.setTrim {} (-7)).loadTrim
      (DualMotorController.setTrim {} (-7)).saveTrim).getTrim = -7 :=
  ⟨by decide, trim_save_load_roundtrip {} (-7) (by decide) (by decide)⟩

/-- OBSTACLE_THRESHOLD_CM from ultrasonic.h: the fixed obstacle distance
threshold used by the front/right threshold tests. -/
def OBSTACLE_THRESHOLD_CM : ℚ := 30

/-- ObstacleDirection from ultrasonic.h. -/
inductive ObstacleDirection where
  | NO_OBSTACLE
  | OBSTACLE_FRONT
  | OBSTACLE_RIGHT
  | OBSTACLE_FRONT_RIGHT
deriving Repr, DecidableEq

/-- Numeric value of the ObstacleDirection enum, as printed by US_CHECK. -/
def ObstacleDirection.val : ObstacleDirection → Nat
  | .NO_OBSTACLE => 0
  | .OBSTACLE_FRONT => 1
  | .OBSTACLE_RIGHT => 2
  | .OBSTACLE_FRONT_RIGHT => 3

/--
State of UltrasonicSensors (ultrasonic.h): the cached last-read distance
of each of the three channels, in cm.  A fresh measurement is an input of
each read operation (the electrical echo timing is environment-driven).
-/
structure UltrasonicSensors where
  lastFront : ℚ := 999
  lastRight : ℚ := 999
  lastY : ℚ := 999
deriving DecidableEq

/-- UltrasonicSensors::measureDistance reduced to the echo duration it
times: a zero duration (echo timeout) yields the sentinel 999, otherwise
distance = duration times SOUND_SPEED_CM_US = 0.034, halved. -/
def UltrasonicSensors.measureDistance (durationUs : Nat) : ℚ :=
  if durationUs = 0 then 999 else (durationUs : ℚ) * (17 / 500) / 2

/-- UltrasonicSensors::getFrontDistance: fresh measurement, cache updated. -/
def UltrasonicSensors.getFrontDistance (u : UltrasonicSensors) (fresh : ℚ) :
    UltrasonicSensors × ℚ :=
  ({ u with lastFront := fresh }, fresh)

/-- UltrasonicSensors::getRightDistance. -/
def UltrasonicSensors.getRightDistance (u : UltrasonicSensors) (fresh : ℚ) :
    UltrasonicSensors × ℚ :=
  ({ u with lastRight := fresh }, fresh)

/-- UltrasonicSensors::getYDistance. -/
def UltrasonicSensors.getYDistance (u : UltrasonicSensors) (fresh : ℚ) :
    UltrasonicSensors × ℚ :=
  ({ u with lastY := fresh }, fresh)

/-- UltrasonicSensors::hasObstacleFront: fresh front distance below the
fixed threshold. -/
def UltrasonicSensors.hasObstacleFront (u : UltrasonicSensors) (fresh : ℚ) :
    UltrasonicSensors × Bool :=
  let (u, dist) := u.getFrontDistance fresh
  (u, dist < OBSTACLE_THRESHOLD_CM)

/-- UltrasonicSensors::hasObstacleRight. -/
def UltrasonicSensors.hasObstacleRight (u : UltrasonicSensors) (fresh : ℚ) :
    UltrasonicSensors × Bool :=
  let (u, dist) := u.getRightDistance fresh
  (u, dist < OBSTACLE_THRESHOLD_CM)

/-- UltrasonicSensors::checkObstacles: compose the front and right
threshold tests (fresh readings) into the four-way classification. -/
def UltrasonicSensors.checkObstacles (u : UltrasonicSensors)
    (frontFresh rightFresh : ℚ) : UltrasonicSensors × ObstacleDirection :=
  let (u, front) := u.hasObstacleFront frontFresh
  let (u, right) := u.hasObstacleRight rightFresh
  if front ∧ right then (u, .OBSTACLE_FRONT_RIGHT)
  else if front then (u, .OBSTACLE_FRONT)
  else if right then (u, .OBSTACLE_RIGHT)
  else (u, .NO_OBSTACLE)

lemma UltrasonicSensors.checkObstacles_snd (u : UltrasonicSensors)
    (f r : ℚ) :
    (u.checkObstacles f r).2 =
      (if f < OBSTACLE_THRESHOLD_CM ∧ r < OBSTACLE_THRESHOLD_CM then
        ObstacleDirection.OBSTACLE_FRONT_RIGHT
      else if f < OBSTACLE_THRESHOLD_CM then .OBSTACLE_FRONT
      else if r < OBSTACLE_THRESHOLD_CM then .OBSTACLE_RIGHT
      else .NO_OBSTACLE) := by
  dsimp only [UltrasonicSensors.checkObstacles,
    UltrasonicSensors.hasObstacleFront, UltrasonicSensors.hasObstacleRight,
    UltrasonicSensors.getFrontDistance, UltrasonicSensors.getRightDistance]
  by_cases hf : f < OBSTACLE_THRESHOLD_CM <;>
    by_cases hr : r < OBSTACLE_THRESHOLD_CM <;>
      simp [hf, hr]

/-- C8: checkObstacles returns the four-way classification of the fresh
front and right readings against the 30 cm threshold (both below gives
value 3, only front value 1, only right value 2, neither value 0); in
particular front 20 cm with right 50 cm classifies as OBSTACLE_FRONT
(value 1), and the echo-timeout sentinel distance 999 produced by
measureDistance at duration 0 never counts as an obstacle on either
channel. -/
theorem checkObstacles_classification (u : UltrasonicSensors) (f r : ℚ) :
    (f < 30 → r < 30 →
      (u.checkObstacles f r).2.val = 3) ∧
    (f < 30 → ¬ r < 30 →
      (u.checkObstacles f r).2.val = 1) ∧
    (¬ f < 30 → r < 30 →
      (u.checkObstacles f r).2.val = 2) ∧
    (¬ f < 30 → ¬ r < 30 →
      (u.checkObstacles f r).2.val = 0) ∧
    (u.checkObstacles 20 50).2.val = 1 ∧
    UltrasonicSensors.measureDistance 0 = 999 ∧
    (u.checkObstacles 999 r).2.val ≠ 1 ∧
    (u.checkObstacles 999 r).2.val ≠ 3 ∧
    (u.checkObstacles f 999).2.val ≠ 2 ∧
    (u.checkObstacles f 999).2.val ≠ 3 := by
  have h999 : ¬ ((999 : ℚ) < OBSTACLE_THRESHOLD_CM) := by
    rw [OBSTACLE_THRESHOLD_CM]; norm_num
  refine ⟨?_, ?_, ?_, ?_, ?_, rfl, ?_, ?_, ?_, ?_⟩ <;>
    simp only [UltrasonicSensors.checkObstacles_snd, OBSTACLE_THRESHOLD_CM] at *
  · intro hf hr; simp [hf, hr, ObstacleDirection.val]
  · intro hf hr; simp [hf, hr, ObstacleDirection.val]
  · intro hf hr; simp [hf, hr, ObstacleDirection.val]
  · intro hf hr; simp [hf, hr, ObstacleDirection.val]
  · norm_num [ObstacleDirection.val]
  · by_cases hr : r < 30 <;> simp [hr, h999, ObstacleDirection.val]
  · by_cases hr : r < 30 <;> simp [hr, h999, ObstacleDirection.val]
  · by_cases hf : f < 30 <;> simp [hf, h999, ObstacleDirection.val]
  · by_cases hf : f < 30 <;> simp [hf, h999, ObstacleDirection.val]

/-- Witness for C8: the front-only case discharged at 20 cm / 50 cm. -/
theorem checkObstacles_classification_witness :
    (20 : ℚ) < 30 ∧ ¬ (50 : ℚ) < 30 ∧
    (UltrasonicSensors.checkObstacles {} 20 50).2.val = 1 :=
  ⟨by norm_num, by norm_num,
   (checkObstacles_classification {} 20 50).2.1 (by norm_num) (by norm_num)⟩

/-- MOTOR_Z_POSITION_TOLERANCE from motor_z.h, in mm. -/
def MOTOR_Z_POSITION_TOLERANCE : ℚ := 2

/-- MOTOR_Z_TIMEOUT_MS from motor_z.h: time budget of moveToCM. -/
def MOTOR_Z_TIMEOUT_MS : Nat := 10000

/-- The GPIO pins written by the modelled actuators. -/
inductive Pin where
  | L_IN1 | L_IN2 | R_IN3 | R_IN4 | Z_IN1 | Z_IN2 | Y_IN1 | Y_IN2 | PUMP_RELAY
deriving Repr, DecidableEq

/-- One analogWrite performed by the Z actuator, recorded for the write
traces of moveToCM. -/
structure PinWrite where
  pin : Pin
  value : Nat
deriving Repr, DecidableEq

/-- State of MotorZ (motor_z.h): configured PWM speed, encoder-mode flag,
and the PWM duty last written to the two Z driver pins. -/
structure MotorZ where
  motorSpeed : Nat := 200
  encoderEnabled : Bool := true
  pin1 : Nat := 0
  pin2 : Nat := 0
deriving Repr, DecidableEq

/-- MotorZ::runForward. -/
def MotorZ.runForward (z : MotorZ) : MotorZ × List PinWrite :=
  ({ z with pin1 := z.motorSpeed, pin2 := 0 },
   [⟨.Z_IN1, z.motorSpeed⟩, ⟨.Z_IN2, 0⟩])

/-- MotorZ::runBackward. -/
def MotorZ.runBackward (z : MotorZ) : MotorZ × List PinWrite :=
  ({ z with pin1 := 0, pin2 := z.motorSpeed },
   [⟨.Z_IN1, 0⟩, ⟨.Z_IN2, z.motorSpeed⟩])

/-- MotorZ::stop. -/
def MotorZ.stop (z : MotorZ) : MotorZ × List PinWrite :=
  ({ z with pin1 := 0, pin2 := 0 }, [⟨.Z_IN1, 0⟩, ⟨.Z_IN2, 0⟩])

/-- Result of an encoder-based Z move: success flag, the loop iteration at
which the move exited, the final motor state, and the trace of analogWrite
calls performed. -/
structure ZMoveResult where
  success : Bool
  exitIter : Nat
  motor : MotorZ
  writes : List PinWrite
deriving Repr, DecidableEq

/-- Elapsed milliseconds at the checks of loop iteration i of
MotorZ::moveToCM: each iteration ends with delay(10), and the loop body is
idealized as instantaneous otherwise. -/
def zElapsedMs (i : Nat) : Nat := 10 * i

/-- The while(true) loop of MotorZ::moveToCM, from iteration i on, with
the two encoder-position tests supplied as boolean iteration predicates
(tolHit i: the i-th sampled error is within tolerance; drivePos i: the
i-th error is positive, so the actuator must extend).  Each iteration
exits successfully when within tolerance, exits with failure when the
elapsed time exceeds MOTOR_Z_TIMEOUT_MS, and otherwise drives toward the
target; both exits stop the actuator.  The loop always terminates because
the elapsed time grows by 10 ms per iteration. -/
def MotorZ.zMoveLoop (z : MotorZ) (tolHit drivePos : Nat → Bool)
    (i : Nat) : ZMoveResult :=
  if tolHit i then
    ⟨true, i, (z.stop).1, (z.stop).2⟩
  else if zElapsedMs i > MOTOR_Z_TIMEOUT_MS then
    ⟨false, i, (z.stop).1, (z.stop).2⟩
  else
    ⟨((if drivePos i then z.runForward else z.runBackward).1.zMoveLoop
        tolHit drivePos (i + 1)).success,
     ((if drivePos i then z.runForward else z.runBackward).1.zMoveLoop
        tolHit drivePos (i + 1)).exitIter,
     ((if drivePos i then z.runForward else z.runBackward).1.zMoveLoop
        tolHit drivePos (i + 1)).motor,
     (if drivePos i then z.runForward else z.runBackward).2 ++
       ((if drivePos i then z.runForward else z.runBackward).1.zMoveLoop
         tolHit drivePos (i + 1)).writes⟩
termination_by 1001 - i
decreasing_by
  simp only [zElapsedMs, MOTOR_Z_TIMEOUT_MS, not_lt] at *
  omega

/-- MotorZ::moveToCM: fails immediately (no drive, no pin writes) when
encoder mode is disabled, otherwise runs the closed loop toward
targetCM * 10 mm. -/
def MotorZ.moveToCM (z : MotorZ) (sample : Nat → ℚ) (targetCM : ℚ) :
    ZMoveResult :=
  if ¬ z.encoderEnabled then ⟨false, 0, z, []⟩
  else z.zMoveLoop
    (fun j => decide (|targetCM * 10 - sample j| ≤ MOTOR_Z_POSITION_TOLERANCE))
    (fun j => decide (targetCM * 10 - sample j > 0)) 0

/-- MotorZ::run (time-based extend/retract): drive in the requested
direction, block for the duration, then stop; afterwards the actuator is
stopped. -/
def MotorZ.run (z : MotorZ) (forward : Bool) : MotorZ × List PinWrite :=
  let d := if forward then z.runForward else z.runBackward
  let s := d.1.stop
  (s.1, d.2 ++ s.2)

/-- MotorZ::enableEncoderMode. -/
def MotorZ.enableEncoderMode (z : MotorZ) : MotorZ :=
  { z with encoderEnabled := true }

/-- MotorZ::disableEncoderMode. -/
def MotorZ.disableEncoderMode (z : MotorZ) : MotorZ :=
  { z with encoderEnabled := false }

lemma MotorZ.zMoveLoop_stuck (tolHit drivePos : Nat → Bool)
    (hstuck : ∀ j, tolHit j = false) :
    ∀ n i z, i + n = 1001 →
      (MotorZ.zMoveLoop z tolHit drivePos i).success = false ∧
      (MotorZ.zMoveLoop z tolHit drivePos i).exitIter = 1001 ∧
      (MotorZ.zMoveLoop z tolHit drivePos i).motor.pin1 = 0 ∧
      (MotorZ.zMoveLoop z tolHit drivePos i).motor.pin2 = 0 := by
  intro n
  induction n with
  | zero =>
    intro i z hi
    rw [MotorZ.zMoveLoop, hstuck i]
    simp only [Bool.false_eq_true, if_false]
    rw [if_pos (by simp only [zElapsedMs, MOTOR_Z_TIMEOUT_MS]; omega)]
    refine ⟨rfl, ?_, rfl, rfl⟩
    show i = 1001
    omega
  | succ k ih =>
    intro i z hi
    rw [MotorZ.zMoveLoop, hstuck i]
    simp only [Bool.false_eq_true, if_false]
    rw [if_neg (by simp only [zElapsedMs, MOTOR_Z_TIMEOUT_MS, not_lt]; omega)]
    have hrec := ih (i + 1)
      ((if drivePos i then MotorZ.runForward z
        else MotorZ.runBackward z)).1 (by omega)
    exact ⟨hrec.1, hrec.2.1, hrec.2.2.1, hrec.2.2.2⟩

/-- State of MotorY (motor_y.h): configured PWM speed, moving flag and the
PWM duty last written to the two Y driver pins. -/
structure MotorY where
  motorSpeed : Nat := 200
  moving : Bool := false
  pin1 : Nat := 0
  pin2 : Nat := 0
deriving Repr, DecidableEq

/-- MotorY::runUp. -/
def MotorY.runUp (y : MotorY) : MotorY :=
  { y with pin1 := y.motorSpeed, pin2 := 0, moving := true }

/-- MotorY::runDown. -/
def MotorY.runDown (y : MotorY) : MotorY :=
  { y with pin1 := 0, pin2 := y.motorSpeed, moving := true }

/-- MotorY::stop: both pins 0, not moving. -/
def MotorY.stop (y : MotorY) : MotorY :=
  { y with pin1 := 0, pin2 := 0, moving := false }

/-- MotorY::up / down / upFor / downFor all drive, block for the duration,
then stop, so the post-state of any timed Y move is the stopped one. -/
def MotorY.timedUp (y : MotorY) : MotorY := y.runUp.stop

/-- Timed downward Y move (MotorY::down / downFor). -/
def MotorY.timedDown (y : MotorY) : MotorY := y.runDown.stop

/-- State of Pump (pump.h): relay flag, with the relay pin level equal to
the flag. -/
structure Pump where
  isOn : Bool := false
deriving Repr, DecidableEq

/-- Pump::on. -/
def Pump.on (p : Pump) : Pump := { p with isOn := true }

/-- Pump::off. -/
def Pump.off (p : Pump) : Pump := { p with isOn := false }

/-- Pump::spray: on, blocking delay, off. -/
def Pump.spray (p : Pump) : Pump := p.on.off

/-- AVOID_CHECK_INTERVAL_MS from obstacle_avoidance.h. -/
def AVOID_CHECK_INTERVAL_MS : Nat := 100

/-- State of ObstacleAvoidance (obstacle_avoidance.h): enabled flag, the
configurable threshold, and the rate-limit timestamp. -/
structure ObstacleAvoidance where
  enabled : Bool := false
  thresholdCm : Int := 30
  lastCheckTime : Nat := 0
deriving Repr, DecidableEq

/-- ObstacleAvoidance::enable. -/
def ObstacleAvoidance.enable (o : ObstacleAvoidance) : ObstacleAvoidance :=
  { o with enabled := true }

/-- ObstacleAvoidance::disable. -/
def ObstacleAvoidance.disable (o : ObstacleAvoidance) : ObstacleAvoidance :=
  { o with enabled := false }

/-- ObstacleAvoidance::isEnabled. -/
def ObstacleAvoidance.isEnabled (o : ObstacleAvoidance) : Bool := o.enabled

/-- ObstacleAvoidance::setThreshold: store the requested threshold. -/
def ObstacleAvoidance.setThreshold (o : ObstacleAvoidance) (cm : Int) :
    ObstacleAvoidance :=
  { o with thresholdCm := cm }

/--
The composite firmware state operated on by the command dispatcher: the
global singleton controllers, plus the EEPROM trim byte cell.
-/
structure RobotState where
  dualMotor : DualMotorController := {}
  encoderZ : MotorEncoder := {}
  motorZ : MotorZ := {}
  motorY : MotorY := {}
  pump : Pump := {}
  ultrasonics : UltrasonicSensors := {}
  obstacleAvoid : ObstacleAvoidance := {}
  eepromTrim : Nat := 50
deriving DecidableEq

/--
Environment of one dispatcher or avoidance call: the current millis()
value, the fresh distance readings the three ultrasonic channels would
measure now (cm), the encoder position in mm sampled at the i-th
iteration of a closed-loop Z move (environment driven, since only the
interrupt handler moves it), and the encoder scale factor mm-per-pulse
(pi times 30 / 20 in the source; kept symbolic because it is irrational).
-/
structure Env where
  now : Nat := 0
  front : ℚ := 999
  right : ℚ := 999
  yDist : ℚ := 999
  zSample : Nat → ℚ := fun _ => 0
  mmPerPulse : ℚ := 47/10

/-- ObstacleAvoidance::avoidFront: stop, back up for
AVOID_BACKUP_DURATION_MS, stop, rotate left in place for
AVOID_TURN_DURATION_MS, stop (the trailing stop is the graceful one, which
only zeroes direction and target). -/
def RobotState.avoidFront (st : RobotState) : RobotState :=
  let d := st.dualMotor.stop
  let d := d.backward
  let d := d.stop
  let d := d.turnLeft
  let d := d.stop
  { st with dualMotor := d }

/-- ObstacleAvoidance::avoidRight: stop, curve left for half the turn
duration, then resume forward. -/
def RobotState.avoidRight (st : RobotState) : RobotState :=
  let d := st.dualMotor.stop
  let d := d.curveLeft
  let d := d.forward
  { st with dualMotor := d }

/-- ObstacleAvoidance::checkAndAvoid: no-op unless enabled and at least
AVOID_CHECK_INTERVAL_MS elapsed since the last check; otherwise take fresh
front and right readings, classify, and dispatch the fixed maneuver;
returns whether an avoidance maneuver ran. -/
def RobotState.checkAndAvoid (st : RobotState) (env : Env) :
    RobotState × Bool :=
  if ¬ st.obstacleAvoid.enabled then (st, false)
  else if env.now - st.obstacleAvoid.lastCheckTime < AVOID_CHECK_INTERVAL_MS
    then (st, false)
  else
    let st := { st with obstacleAvoid :=
      { st.obstacleAvoid with lastCheckTime := env.now } }
    let c := st.ultrasonics.checkObstacles env.front env.right
    let st := { st with ultrasonics := c.1 }
    match c.2 with
    | .NO_OBSTACLE => (st, false)
    | .OBSTACLE_FRONT => (st.avoidFront, true)
    | .OBSTACLE_RIGHT => (st.avoidRight, true)
    | .OBSTACLE_FRONT_RIGHT => (st.avoidFront, true)

/-- Whitespace recognized by Arduino String::trim (C isspace). -/
def isSpaceChar (c : Char) : Bool :=
  c == ' ' || c == '\t' || c == '\n' || c == '\r' || c == '\x0b' || c == '\x0c'

/-- Arduino String::trim on a character list. -/
def trimChars (cs : List Char) : List Char :=
  ((cs.dropWhile isSpaceChar).reverse.dropWhile isSpaceChar).reverse

/-- Arduino String::startsWith on character lists. -/
def strStartsWith : List Char → List Char → Bool
  | _, [] => true
  | [], _ :: _ => false
  | c :: cs, p :: ps => c == p && strStartsWith cs ps

/-- The substring after the last colon of the command, as used by
CommandHandler::parseInt and parseTime (lastIndexOf then substring); none
when the command has no colon. -/
def afterLastColon (cs : List Char) : Option (List Char) :=
  let tail := cs.reverse.takeWhile (fun c => !(c == ':'))
  if tail.length = cs.length then none else some tail.reverse

/-- Accumulate leading decimal digits, stopping at the first non-digit
(the digit scan shared by atol and atof). -/
def digitsAcc : List Char → Nat → Nat
  | [], acc => acc
  | c :: cs, acc =>
    if c.isDigit then digitsAcc cs (10 * acc + (c.toNat - 48)) else acc

/-- C atol (behind Arduino String::toInt): optional whitespace and sign,
then leading digits; anything malformed contributes 0. -/
def atolChars (cs : List Char) : Int :=
  match cs.dropWhile isSpaceChar with
  | '-' :: rest => -(digitsAcc rest 0 : Int)
  | '+' :: rest => (digitsAcc rest 0 : Int)
  | rest => (digitsAcc rest 0 : Int)

/-- Magnitude part of C atof: integer digits and an optional fraction. -/
def atofMag (cs : List Char) : ℚ :=
  match cs.dropWhile Char.isDigit with
  | '.' :: fr =>
    (digitsAcc (cs.takeWhile Char.isDigit) 0 : ℚ) +
      (digitsAcc (fr.takeWhile Char.isDigit) 0 : ℚ) /
        (10 : ℚ) ^ (fr.takeWhile Char.isDigit).length
  | _ => (digitsAcc (cs.takeWhile Char.isDigit) 0 : ℚ)

/-- C atof (behind Arduino String::toFloat): optional whitespace and sign
then a decimal magnitude (the commands never use exponent forms). -/
def atofChars (cs : List Char) : ℚ :=
  match cs.dropWhile isSpaceChar with
  | '-' :: rest => -(atofMag rest)
  | '+' :: rest => atofMag rest
  | rest => atofMag rest

/-- CommandHandler::parseInt: integer after the last colon, 0 if none. -/
def parseIntCmd (cmd : List Char) : Int :=
  match afterLastColon cmd with
  | none => 0
  | some s => atolChars s

/-- CommandHandler::parseTime: decimal number after the last colon, 0 if
none. -/
def parseTimeCmd (cmd : List Char) : ℚ :=
  match afterLastColon cmd with
  | none => 0
  | some s => atofChars s

/-- The structured form of one dispatched command: one constructor per
branch of CommandHandler::processCommand, with the numeric payload already
extracted by parseInt / parseTime where the branch uses one. -/
inductive Cmd where
  | moveForward | moveBackward | moveStop
  | moveFw (speed : Int) | moveBw (speed : Int) | moveSetSpeed (speed : Int)
  | moveGetSpeed | moveXFw | moveXBw
  | actZOut (sec : ℚ) | actZIn (sec : ℚ)
  | zMove (cm : ℚ) | zHome | zPos | zReset | zEncOn | zEncOff
  | actYDown | actYUp | yDown (sec : ℚ) | yUp (sec : ℚ) | yStop
  | actSpray (sec : ℚ) | pumpOn | pumpOff
  | usGetDist | usCheck
  | avoidOn | avoidOff | avoidSet (cm : Int)
  | driveFw | driveBw | driveStop | driveEstop
  | turnLeft | turnRight | curveLeft | curveRight
  | driveSpeed (speed : Int) | trimSet (offset : Int) | trimSave | trimGet
  | stopAll | statusCmd | ping
  | beep | beepN (times : Int) | buzzerOn | buzzerOff
  | buzzerSuccess | buzzerError | buzzerWarning
  | unknown (text : List Char)

/-- The ordered pattern-match chain of CommandHandler::processCommand on
the trimmed command line, producing the structured command (first match
wins; the final else yields the unknown case carrying the offending
text). -/
def parseCommand (cmd : List Char) : Cmd :=
  if cmd = "MOVE_FORWARD".data then .moveForward
  else if cmd = "MOVE_BACKWARD".data then .moveBackward
  else if cmd = "MOVE_STOP".data then .moveStop
  else if strStartsWith cmd "MOVE_FW:".data then .moveFw (parseIntCmd cmd)
  else if strStartsWith cmd "MOVE_BW:".data then .moveBw (parseIntCmd cmd)
  else if strStartsWith cmd "MOVE_SET_SPEED:".data then
    .moveSetSpeed (parseIntCmd cmd)
  else if cmd = "MOVE_GET_SPEED".data then .moveGetSpeed
  else if cmd = "MOVE_X:FW".data then .moveXFw
  else if cmd = "MOVE_X:BW".data then .moveXBw
  else if strStartsWith cmd "ACT:Z_OUT:".data then .actZOut (parseTimeCmd cmd)
  else if strStartsWith cmd "ACT:Z_IN:".data then .actZIn (parseTimeCmd cmd)
  else if strStartsWith cmd "Z_MOVE:".data then .zMove (parseTimeCmd cmd)
  else if cmd = "Z_HOME".data then .zHome
  else if cmd = "Z_POS".data then .zPos
  else if cmd = "Z_RESET".data then .zReset
  else if cmd = "Z_ENC_ON".data then .zEncOn
  else if cmd = "Z_ENC_OFF".data then .zEncOff
  else if cmd = "ACT:Y_DOWN".data then .actYDown
  else if cmd = "ACT:Y_UP".data then .actYUp
  else if strStartsWith cmd "Y_DOWN:".data then .yDown (parseTimeCmd cmd)
  else if strStartsWith cmd "Y_UP:".data then .yUp (parseTimeCmd cmd)
  else if cmd = "Y_STOP".data then .yStop
  else if strStartsWith cmd "ACT:SPRAY:".data then .actSpray (parseTimeCmd cmd)
  else if cmd = "PUMP_ON".data then .pumpOn
  else if cmd = "PUMP_OFF".data then .pumpOff
  else if cmd = "US_GET_DIST".data then .usGetDist
  else if cmd = "US_CHECK".data then .usCheck
  else if cmd = "AVOID_ON".data then .avoidOn
  else if cmd = "AVOID_OFF".data then .avoidOff
  else if strStartsWith cmd "AVOID_SET:".data then .avoidSet (parseIntCmd cmd)
  else if cmd = "DRIVE_FW".data then .driveFw
  else if cmd = "DRIVE_BW".data then .driveBw
  else if cmd = "DRIVE_STOP".data then .driveStop
  else if cmd = "DRIVE_ESTOP".data then .driveEstop
  else if cmd = "TURN_LEFT".data then .turnLeft
  else if cmd = "TURN_RIGHT".data then .turnRight
  else if cmd = "CURVE_LEFT".data then .curveLeft
  else if cmd = "CURVE_RIGHT".data then .curveRight
  else if strStartsWith cmd "DRIVE_SPEED:".data then
    .driveSpeed (parseIntCmd cmd)
  else if strStartsWith cmd "TRIM_SET:".data then .trimSet (parseIntCmd cmd)
  else if cmd = "TRIM_SAVE".data then .trimSave
  else if cmd = "TRIM_GET".data then .trimGet
  else if cmd = "STOP_ALL".data then .stopAll
  else if cmd = "STATUS".data then .statusCmd
  else if cmd = "PING".data then .ping
  else if cmd = "BEEP".data then .beep
  else if strStartsWith cmd "BEEP:".data then .beepN (parseIntCmd cmd)
  else if cmd = "BUZZER_ON".data then .buzzerOn
  else if cmd = "BUZZER_OFF".data then .buzzerOff
  else if cmd = "BUZZER_SUCCESS".data then .buzzerSuccess
  else if cmd = "BUZZER_ERROR".data then .buzzerError
  else if cmd = "BUZZER_WARNING".data then .buzzerWarning
  else .unknown cmd

/-- CommandHandler::sendDone. -/
def sendDone : List Char := "DONE".data

/-- CommandHandler::sendError output line. -/
def errorLine (msg : List Char) : List Char := "ERROR:".data ++ msg

/-- Render an integer for a response line. -/
def intToStr (i : Int) : List Char := (toString i).data

/-- Render a natural number for a response line. -/
def natToStr (n : Nat) : List Char := (toString n).data

/-- Render a rational for a response line.  The firmware prints floats
with a fixed number of decimals; that formatting is abstracted to an
exact numerator/denominator rendering, which no claim inspects. -/
def ratToStr (q : ℚ) : List Char :=
  (toString q.num).data ++ '/' :: (toString q.den).data

/-- MotorZ::getPositionCM at dispatcher level: encoder pulse count times
the mm-per-pulse scale over 10, or 0 when encoder mode is disabled. -/
def RobotState.zPositionCM (st : RobotState) (env : Env) : ℚ :=
  if st.motorZ.encoderEnabled then
    st.encoderZ.pulseCount * env.mmPerPulse / 10
  else 0

/-- CommandHandler::stopAll: stop the Z motor, stop the Y motor, emergency
stop the drive, pump off, and disable obstacle avoidance. -/
def RobotState.stopAll (st : RobotState) : RobotState :=
  { st with motorZ := (st.motorZ.stop).1,
            motorY := st.motorY.stop,
            dualMotor := st.dualMotor.emergencyStop,
            pump := st.pump.off,
            obstacleAvoid := st.obstacleAvoid.disable }

/-- The action taken by each branch of CommandHandler::processCommand:
the new firmware state and the protocol response lines written.  Buzzer
commands only produce their acknowledgement (tones are unmodelled I/O). -/
def execCommand (c : Cmd) (st : RobotState) (env : Env) :
    RobotState × List (List Char) :=
  match c with
  | .moveForward => ({ st with dualMotor := st.dualMotor.forward }, [sendDone])
  | .moveBackward =>
    ({ st with dualMotor := st.dualMotor.backward }, [sendDone])
  | .moveStop => ({ st with dualMotor := st.dualMotor.stop }, [sendDone])
  | .moveFw speed =>
    ({ st with dualMotor := (st.dualMotor.setSpeed speed).forward }, [sendDone])
  | .moveBw speed =>
    ({ st with dualMotor := (st.dualMotor.setSpeed speed).backward },
     [sendDone])
  | .moveSetSpeed speed =>
    ({ st with dualMotor := st.dualMotor.setSpeed speed }, [sendDone])
  | .moveGetSpeed =>
    (st, ["SPEED:".data ++ intToStr st.dualMotor.getSpeed])
  | .moveXFw => ({ st with dualMotor := st.dualMotor.curveRight }, [sendDone])
  | .moveXBw => ({ st with dualMotor := st.dualMotor.curveLeft }, [sendDone])
  | .actZOut _ => ({ st with motorZ := (st.motorZ.run true).1 }, [sendDone])
  | .actZIn _ => ({ st with motorZ := (st.motorZ.run false).1 }, [sendDone])
  | .zMove cm =>
    if (st.motorZ.moveToCM env.zSample cm).success then
      ({ st with motorZ := (st.motorZ.moveToCM env.zSample cm).motor },
       ["POS:".data ++ ratToStr (env.zSample
          (st.motorZ.moveToCM env.zSample cm).exitIter / 10), sendDone])
    else
      ({ st with motorZ := (st.motorZ.moveToCM env.zSample cm).motor },
       [errorLine "Move failed or timeout".data, sendDone])
  | .zHome =>
    if (st.motorZ.moveToCM env.zSample 0).success then
      ({ st with motorZ := (st.motorZ.moveToCM env.zSample 0).motor,
                 encoderZ := st.encoderZ.reset }, [sendDone])
    else
      ({ st with motorZ := (st.motorZ.moveToCM env.zSample 0).motor },
       [sendDone])
  | .zPos => (st, ["POS:".data ++ ratToStr (st.zPositionCM env)])
  | .zReset => ({ st with encoderZ := st.encoderZ.reset }, [sendDone])
  | .zEncOn =>
    ({ st with motorZ := st.motorZ.enableEncoderMode }, [sendDone])
  | .zEncOff =>
    ({ st with motorZ := st.motorZ.disableEncoderMode }, [sendDone])
  | .actYDown => ({ st with motorY := st.motorY.timedDown }, [sendDone])
  | .actYUp => ({ st with motorY := st.motorY.timedUp }, [sendDone])
  | .yDown _ => ({ st with motorY := st.motorY.timedDown }, [sendDone])
  | .yUp _ => ({ st with motorY := st.motorY.timedUp }, [sendDone])
  | .yStop => ({ st with motorY := st.motorY.stop }, [sendDone])
  | .actSpray _ => ({ st with pump := st.pump.spray }, [sendDone])
  | .pumpOn => ({ st with pump := st.pump.on }, [sendDone])
  | .pumpOff => ({ st with pump := st.pump.off }, [sendDone])
  | .usGetDist =>
    ({ st with ultrasonics :=
        { lastFront := env.front, lastRight := env.right, lastY := env.yDist } },
     ["DIST:".data ++ ratToStr env.front ++ ',' ::
        (ratToStr env.yDist ++ ',' :: ratToStr env.right)])
  | .usCheck =>
    ({ st with ultrasonics :=
        (st.ultrasonics.checkObstacles env.front env.right).1 },
     ["OBSTACLE:".data ++
       natToStr (st.ultrasonics.checkObstacles env.front env.right).2.val])
  | .avoidOn =>
    ({ st with obstacleAvoid := st.obstacleAvoid.enable }, [sendDone])
  | .avoidOff =>
    ({ st with obstacleAvoid := st.obstacleAvoid.disable }, [sendDone])
  | .avoidSet cm =>
    ({ st with obstacleAvoid := st.obstacleAvoid.setThreshold cm }, [sendDone])
  | .driveFw => ({ st with dualMotor := st.dualMotor.forward }, [sendDone])
  | .driveBw => ({ st with dualMotor := st.dualMotor.backward }, [sendDone])
  | .driveStop => ({ st with dualMotor := st.dualMotor.stop }, [sendDone])
  | .driveEstop =>
    ({ st with dualMotor := st.dualMotor.emergencyStop }, [sendDone])
  | .turnLeft => ({ st with dualMotor := st.dualMotor.turnLeft }, [sendDone])
  | .turnRight =>
    ({ st with dualMotor := st.dualMotor.turnRight }, [sendDone])
  | .curveLeft =>
    ({ st with dualMotor := st.dualMotor.curveLeft }, [sendDone])
  | .curveRight =>
    ({ st with dualMotor := st.dualMotor.curveRight }, [sendDone])
  | .driveSpeed speed =>
    ({ st with dualMotor := st.dualMotor.setSpeed speed }, [sendDone])
  | .trimSet offset =>
    ({ st with dualMotor := st.dualMotor.setTrim offset }, [sendDone])
  | .trimSave => ({ st with eepromTrim := st.dualMotor.saveTrim }, [sendDone])
  | .trimGet => (st, ["TRIM:".data ++ intToStr st.dualMotor.getTrim])
  | .stopAll => (st.stopAll, [sendDone])
  | .statusCmd => (st, ["OK".data])
  | .ping => (st, ["PONG".data])
  | .beep => (st, [sendDone])
  | .beepN _ => (st, [sendDone])
  | .buzzerOn => (st, [sendDone])
  | .buzzerOff => (st, [sendDone])
  | .buzzerSuccess => (st, [sendDone])
  | .buzzerError => (st, [sendDone])
  | .buzzerWarning => (st, [sendDone])
  | .unknown text => (st, [errorLine ("Unknown command: ".data ++ text)])

/-- CommandHandler::processCommand: trim the line, match it against the
ordered pattern chain, and perform the single matched action. -/
def processCommand (st : RobotState) (env : Env) (input : List Char) :
    RobotState × List (List Char) :=
  execCommand (parseCommand (trimChars input)) st env

/-- C9: an input line matching no command pattern (the parse chain falls
through to the unknown case) produces exactly one response line, namely
ERROR:Unknown command: followed by the offending (trimmed) input, and
leaves the entire firmware state unchanged. -/
theorem unknown_command_single_error_no_state_change (st : RobotState)
    (env : Env) (input : List Char)
    (h : parseCommand (trimChars input) = .unknown (trimChars input)) :
    processCommand st env input =
      (st, [errorLine ("Unknown command: ".data ++ trimChars input)]) := by
  unfold processCommand
  rw [h]
  rfl

/-- Witness for C9 on the input FOO_BAR. -/
theorem unknown_command_single_error_no_state_change_witness :
    parseCommand (trimChars "FOO_BAR".data) =
      .unknown (trimChars "FOO_BAR".data) ∧
    processCommand {} {} "FOO_BAR".data =
      ({}, [errorLine ("Unknown command: ".data ++ trimChars "FOO_BAR".data)]) :=
  ⟨rfl,
   unknown_command_single_error_no_state_change {} {} "FOO_BAR".data rfl⟩

/-- C7: when encoder mode is disabled, MotorZ::moveToCM fails immediately
with no pin writes and an unchanged motor state, and the dispatcher's
Z_MOVE branch responds ERROR:Move failed or timeout then DONE, leaving
the firmware state unchanged. -/
theorem zmove_encoder_disabled_fails_without_moving (st : RobotState)
    (env : Env) (input : List Char) (t : ℚ)
    (hparse : parseCommand (trimChars input) = .zMove t)
    (henc : st.motorZ.encoderEnabled = false) :
    (st.motorZ.moveToCM env.zSample t).success = false ∧
    (st.motorZ.moveToCM env.zSample t).writes = [] ∧
    (st.motorZ.moveToCM env.zSample t).motor = st.motorZ ∧
    processCommand st env input =
      (st, [errorLine "Move failed or timeout".data, sendDone]) := by
  have hmove : st.motorZ.moveToCM env.zSample t =
      ⟨false, 0, st.motorZ, []⟩ := by
    rw [MotorZ.moveToCM, if_pos (by rw [henc]; decide)]
  refine ⟨by rw [hmove], by rw [hmove], by rw [hmove], ?_⟩
  unfold processCommand
  rw [hparse]
  show (if (st.motorZ.moveToCM env.zSample t).success then _ else _) = _
  rw [hmove]
  simp

/-- Witness for C7: Z_MOVE:5 with encoder mode off. -/
theorem zmove_encoder_disabled_fails_without_moving_witness :
    parseCommand (trimChars "Z_MOVE:5".data) = .zMove 5 ∧
    ({ motorZ := { encoderEnabled := false } } :
        RobotState).motorZ.encoderEnabled = false ∧
    processCommand { motorZ := { encoderEnabled := false } } {}
        "Z_MOVE:5".data =
      ({ motorZ := { encoderEnabled := false } },
       [errorLine "Move failed or timeout".data, sendDone]) :=
  ⟨rfl, rfl,
   (zmove_encoder_disabled_fails_without_moving
     { motorZ := { encoderEnabled := false } } {} "Z_MOVE:5".data 5
     rfl rfl).2.2.2⟩

/-- C4: when the sampled encoder position never comes within the 2 mm
tolerance of the target, a Z_MOVE command terminates: the closed loop of
moveToCM exits with failure exactly at iteration 1001, the first one whose
elapsed time (10 ms per iteration) exceeds the 10 s budget and at no
earlier one, the actuator is left stopped (both Z pins 0), and the
dispatcher responds ERROR:Move failed or timeout then DONE. -/
theorem zmove_stuck_times_out_at_budget (st : RobotState) (env : Env)
    (input : List Char) (t : ℚ)
    (hparse : parseCommand (trimChars input) = .zMove t)
    (henc : st.motorZ.encoderEnabled = true)
    (hstuck : ∀ j, MOTOR_Z_POSITION_TOLERANCE < |t * 10 - env.zSample j|) :
    (st.motorZ.moveToCM env.zSample t).success = false ∧
    (st.motorZ.moveToCM env.zSample t).exitIter = 1001 ∧
    MOTOR_Z_TIMEOUT_MS < zElapsedMs 1001 ∧
    (∀ j, j < 1001 → ¬ MOTOR_Z_TIMEOUT_MS < zElapsedMs j) ∧
    (st.motorZ.moveToCM env.zSample t).motor.pin1 = 0 ∧
    (st.motorZ.moveToCM env.zSample t).motor.pin2 = 0 ∧
    (processCommand st env input).2 =
      [errorLine "Move failed or timeout".data, sendDone] := by
  have hmove : st.motorZ.moveToCM env.zSample t =
      st.motorZ.zMoveLoop
        (fun j => decide (|t * 10 - env.zSample j| ≤ MOTOR_Z_POSITION_TOLERANCE))
        (fun j => decide (t * 10 - env.zSample j > 0)) 0 := by
    rw [MotorZ.moveToCM, if_neg (by rw [henc]; decide)]
  have hloop := MotorZ.zMoveLoop_stuck
    (fun j => decide (|t * 10 - env.zSample j| ≤ MOTOR_Z_POSITION_TOLERANCE))
    (fun j => decide (t * 10 - env.zSample j > 0))
    (fun j => decide_eq_false (not_le.mpr (hstuck j)))
    1001 0 st.motorZ (by omega)
  refine ⟨by rw [hmove]; exact hloop.1, by rw [hmove]; exact hloop.2.1,
    by rw [MOTOR_Z_TIMEOUT_MS, zElapsedMs]; omega,
    fun j hj => by rw [MOTOR_Z_TIMEOUT_MS, zElapsedMs]; omega,
    by rw [hmove]; exact hloop.2.2.1, by rw [hmove]; exact hloop.2.2.2, ?_⟩
  unfold processCommand
  rw [hparse]
  simp only [execCommand]
  rw [hmove, hloop.1]
  simp

/-- Witness for C4: Z_MOVE:5 with the encoder stuck at 1000 mm. -/
theorem zmove_stuck_times_out_at_budget_witness :
    parseCommand (trimChars "Z_MOVE:5".data) = .zMove 5 ∧
    (({} : RobotState).motorZ.encoderEnabled = true) ∧
    (({} : RobotState).motorZ.moveToCM
      (Env.zSample { zSample := fun _ => 1000 }) 5).success = false ∧
    (({} : RobotState).motorZ.moveToCM
      (Env.zSample { zSample := fun _ => 1000 }) 5).exitIter = 1001 :=
  ⟨rfl, rfl,
   (zmove_stuck_times_out_at_budget {} { zSample := fun _ => 1000 }
     "Z_MOVE:5".data 5 rfl rfl
     (fun j => by simp only [MOTOR_Z_POSITION_TOLERANCE]; norm_num)).1,
   (zmove_stuck_times_out_at_budget {} { zSample := fun _ => 1000 }
     "Z_MOVE:5".data 5 rfl rfl
     (fun j => by simp only [MOTOR_Z_POSITION_TOLERANCE]; norm_num)).2.1⟩

/-- Concrete firmware state for the C5 counterexample: obstacle avoidance
enabled, everything else at its initial value. -/
def cexAvoidState : RobotState := { obstacleAvoid := { enabled := true } }

/-- Concrete environment for the C5 counterexample: front reading 20 cm,
right reading 50 cm, current time 1000 ms. -/
def cexAvoidEnv : Env := { now := 1000, front := 20, right := 50 }

/-- C5 counterexample: after AVOID_SET:10 the stored threshold is 10, yet
an enabled, rate-limit-passing checkAndAvoid with front reading 20 cm and
right reading 50 cm still reports an obstacle, although neither reading is
below the configured threshold 10: detection uses the fixed 30 cm default,
so the claimed equivalence with the configured threshold fails here. -/
theorem avoid_set_threshold_counterexample :
    (processCommand cexAvoidState cexAvoidEnv
      "AVOID_SET:10".data).1.obstacleAvoid.thresholdCm = 10 ∧
    ((processCommand cexAvoidState cexAvoidEnv
      "AVOID_SET:10".data).1.checkAndAvoid cexAvoidEnv).2 = true ∧
    ((10 : ℚ) ≤ 20) ∧ ((10 : ℚ) ≤ 50) := by
  refine ⟨by decide, by decide, by norm_num, by norm_num⟩

/-- C5 amended: AVOID_SET:t stores t as the avoidance threshold (and
preserves the enabled flag and rate-limit timestamp), but a subsequent
enabled, rate-limit-passing checkAndAvoid detects an obstacle exactly when
a fresh front or right reading is below the fixed default threshold
OBSTACLE_THRESHOLD_CM = 30, independent of the configured t. -/
theorem avoid_set_stores_threshold_detection_uses_fixed_default
    (st : RobotState) (env env' : Env) (input : List Char) (t : Int)
    (hparse : parseCommand (trimChars input) = .avoidSet t)
    (hen : st.obstacleAvoid.enabled = true)
    (hrate : AVOID_CHECK_INTERVAL_MS ≤
      env'.now - st.obstacleAvoid.lastCheckTime) :
    (processCommand st env input).1.obstacleAvoid.thresholdCm = t ∧
    (((processCommand st env input).1.checkAndAvoid env').2 = true ↔
      (env'.front < OBSTACLE_THRESHOLD_CM ∨
        env'.right < OBSTACLE_THRESHOLD_CM)) := by
  have hst : (processCommand st env input).1 =
      { st with obstacleAvoid := st.obstacleAvoid.setThreshold t } := by
    unfold processCommand
    rw [hparse]
    rfl
  have hnr : ¬ (env'.now - st.obstacleAvoid.lastCheckTime <
      AVOID_CHECK_INTERVAL_MS) := by omega
  refine ⟨by rw [hst]; rfl, ?_⟩
  rw [hst]
  by_cases hf : env'.front < OBSTACLE_THRESHOLD_CM <;>
    by_cases hr : env'.right < OBSTACLE_THRESHOLD_CM <;>
      · simp [RobotState.checkAndAvoid, UltrasonicSensors.checkObstacles,
          UltrasonicSensors.hasObstacleFront,
          UltrasonicSensors.hasObstacleRight,
          UltrasonicSensors.getFrontDistance,
          UltrasonicSensors.getRightDistance,
          ObstacleAvoidance.setThreshold, hf, hr, hen]
        rw [if_neg hnr]

/-- Witness for the amended C5 at t = 10 with front 20 cm, right 50 cm. -/
theorem avoid_set_stores_threshold_detection_witness :
    parseCommand (trimChars "AVOID_SET:10".data) = .avoidSet 10 ∧
    cexAvoidState.obstacleAvoid.enabled = true ∧
    AVOID_CHECK_INTERVAL_MS ≤
      cexAvoidEnv.now - cexAvoidState.obstacleAvoid.lastCheckTime ∧
    (processCommand cexAvoidState cexAvoidEnv
      "AVOID_SET:10".data).1.obstacleAvoid.thresholdCm = 10 :=
  ⟨rfl, by decide, by decide,
   (avoid_set_stores_threshold_detection_uses_fixed_default cexAvoidState
     cexAvoidEnv cexAvoidEnv "AVOID_SET:10".data 10 rfl (by decide)
     (by decide)).1⟩

lemma checkAndAvoid_disabled_noop (st : RobotState) (env : Env)
    (h : st.obstacleAvoid.enabled = false) :
    st.checkAndAvoid env = (st, false) := by
  unfold RobotState.checkAndAvoid
  rw [if_pos (by simp [h])]

lemma execCommand_preserves_avoid_disabled (c : Cmd) (st : RobotState)
    (env : Env) (hc : c ≠ Cmd.avoidOn)
    (h : st.obstacleAvoid.enabled = false) :
    (execCommand c st env).1.obstacleAvoid.enabled = false := by
  cases c <;> simp only [execCommand] <;> (try split) <;>
    simp_all [RobotState.stopAll, ObstacleAvoidance.disable,
      ObstacleAvoidance.enable, ObstacleAvoidance.setThreshold]

/-- C10: STOP_ALL halts every actuator (drive emergency-stopped with all
four PWM pins at 0, Z and Y motors stopped, pump off) and in addition
disables the obstacle-avoidance loop: afterwards checkAndAvoid is a no-op
(returns false and changes nothing) in every environment, every command
other than AVOID_ON keeps avoidance disabled, and AVOID_ON re-enables
it. -/
theorem stopAll_halts_actuators_and_disables_avoidance (st : RobotState)
    (env : Env) :
    (processCommand st env "STOP_ALL".data).1.obstacleAvoid.enabled
      = false ∧
    (processCommand st env "STOP_ALL".data).1.dualMotor.currentSpeedL = 0 ∧
    (processCommand st env "STOP_ALL".data).1.dualMotor.currentSpeedR = 0 ∧
    (processCommand st env "STOP_ALL".data).1.dualMotor.pinL1 = 0 ∧
    (processCommand st env "STOP_ALL".data).1.dualMotor.pinL2 = 0 ∧
    (processCommand st env "STOP_ALL".data).1.dualMotor.pinR3 = 0 ∧
    (processCommand st env "STOP_ALL".data).1.dualMotor.pinR4 = 0 ∧
    (processCommand st env "STOP_ALL".data).1.motorZ.pin1 = 0 ∧
    (processCommand st env "STOP_ALL".data).1.motorZ.pin2 = 0 ∧
    (processCommand st env "STOP_ALL".data).1.motorY.pin1 = 0 ∧
    (processCommand st env "STOP_ALL".data).1.motorY.pin2 = 0 ∧
    (processCommand st env "STOP_ALL".data).1.pump.isOn = false ∧
    (processCommand st env "STOP_ALL".data).2 = [sendDone] ∧
    (∀ env' : Env,
      ((processCommand st env "STOP_ALL".data).1.checkAndAvoid env') =
        ((processCommand st env "STOP_ALL".data).1, false)) ∧
    (∀ c : Cmd, c ≠ Cmd.avoidOn → ∀ env' : Env,
      (execCommand c (processCommand st env "STOP_ALL".data).1
        env').1.obstacleAvoid.enabled = false) ∧
    (processCommand (processCommand st env "STOP_ALL".data).1 env
        "AVOID_ON".data).1.obstacleAvoid.enabled = true := by
  have h1 : processCommand st env "STOP_ALL".data =
      (st.stopAll, [sendDone]) := rfl
  rw [h1]
  refine ⟨rfl, rfl, rfl, rfl, rfl, rfl, rfl, rfl, rfl, rfl, rfl, rfl, rfl,
    ?_, ?_, rfl⟩
  · exact fun env' => checkAndAvoid_disabled_noop st.stopAll env' rfl
  · exact fun c hc env' =>
      execCommand_preserves_avoid_disabled c st.stopAll env' hc rfl

/-- Witness for C10: after STOP_ALL from the initial state, the PING
command (an arbitrary command other than AVOID_ON) keeps avoidance
disabled. -/
theorem stopAll_halts_actuators_and_disables_avoidance_witness :
    (Cmd.ping ≠ Cmd.avoidOn) ∧
    (execCommand Cmd.ping (processCommand cexAvoidState {}
      "STOP_ALL".data).1 {}).1.obstacleAvoid.enabled = false :=
  ⟨fun h => Cmd.noConfusion h,
   (stopAll_halts_actuators_and_disables_avoidance cexAvoidState {}).2.2.2.2.2.2.2.2.2.2.2.2.2.2.1
     Cmd.ping (fun h => Cmd.noConfusion h) {}⟩
